import Mathlib

/-!
# AIHE Meta-Framework — formal verification of the calculation core

A shallow embedding, over `ℚ`, of the two calculation-engine variants in the
repository:

* `CalcPy` embeds `calculations.py` (the root-level engine, which works with
  Python `Decimal` values and clamps every metric into `[0,1]`);
* `Backend` embeds `backend/app/core/calculations.py` (the FastAPI engine,
  which guards on input shape and rounds results to 3 decimals);
* `Crud` embeds the completion path of `crud_assessment.py` together with the
  `AssessmentCompletion` pydantic validator from
  `backend/app/schemas/assessment.py`.

Python `float`/`Decimal` values are modelled as exact rationals; `round`/
`Decimal.quantize(…, ROUND_HALF_UP)` to `n` decimals is modelled as
round-half-up on `ℚ` (`roundN`).  Python dicts keyed by the eight dimension
ids are modelled as total functions `Dim → ℚ` together with the fixed
iteration order `dimList` (Python dicts preserve insertion order, which is
`D1 … D8` everywhere in the source).
-/

namespace AIHE

/-- The eight dimension identifiers `"D1" … "D8"`. -/
inductive Dim where
  | D1 | D2 | D3 | D4 | D5 | D6 | D7 | D8
deriving DecidableEq, Repr

/-- The dimension ids in the order the source inserts them into its dicts. -/
def dimList : List Dim := [.D1, .D2, .D3, .D4, .D5, .D6, .D7, .D8]

/-- Printable name of a dimension, as the source's string ids. -/
def dimName : Dim → String
  | .D1 => "D1" | .D2 => "D2" | .D3 => "D3" | .D4 => "D4"
  | .D5 => "D5" | .D6 => "D6" | .D7 => "D7" | .D8 => "D8"

/-- A dimension-level score record (`DimensionScore` in both variants):
current value, target value and the dynamic weight attached to it. -/
structure DimensionScore where
  dimension_id : Dim
  ist_value : ℚ
  soll_value : ℚ
  dynamic_weight : ℚ := 0.125
deriving DecidableEq, Repr

/-- The root engine's `DimensionScore` computes `gap = abs(ist - soll)`. -/
def DimensionScore.gap (s : DimensionScore) : ℚ := |s.ist_value - s.soll_value|

/-- A context factor (`ContextFactor`): a named factor rated on a 0–3 scale
(the integer is unconstrained in the code itself; the schema bounds it). -/
structure ContextFactor where
  factor_name : String
  factor_value : ℤ
deriving DecidableEq, Repr

/-- A raw subdimension score as supplied to the completion endpoint. -/
structure SubdimensionScore where
  subdimension_id : String
  ist_value : ℚ
  soll_value : ℚ
deriving DecidableEq, Repr

/-- Priority levels produced by the gap-analysis engines (the source uses the
strings `"CRITICAL" | "HIGH" | "MEDIUM" | "LOW"`). -/
inductive PriorityLevel where
  | CRITICAL | HIGH | MEDIUM | LOW
deriving DecidableEq, Repr

/-- The sort rank used by `generate_recommendations`
(`{"CRITICAL": 0, "HIGH": 1, "MEDIUM": 2, "LOW": 3}`). -/
def priority_order : PriorityLevel → ℕ
  | .CRITICAL => 0 | .HIGH => 1 | .MEDIUM => 2 | .LOW => 3

/-- Round-half-up to 3 decimals (`Decimal.quantize('0.001', ROUND_HALF_UP)`;
also used for Python's `round(x, 3)` at the points where the source applies
it, none of which sit on a half-way tie in the claims considered). -/
def round3 (x : ℚ) : ℚ := (⌊x * 1000 + 1/2⌋ : ℚ) / 1000

/-- Round-half-up to 1 decimal. -/
def round1 (x : ℚ) : ℚ := (⌊x * 10 + 1/2⌋ : ℚ) / 10

/-- Round-half-up to 2 decimals. -/
def round2 (x : ℚ) : ℚ := (⌊x * 100 + 1/2⌋ : ℚ) / 100

/-- Update one entry of a weight dict (`weights[d] = v`). -/
def updW (w : Dim → ℚ) (d : Dim) (v : ℚ) : Dim → ℚ :=
  fun e => if e = d then v else w e

/-- Sum of all values of a weight dict (`sum(weights.values())`). -/
def wsum (w : Dim → ℚ) : ℚ := (dimList.map w).sum

/-- First dimension carrying the maximal weight, in dict iteration order
(`max(rounded_weights, key=rounded_weights.get)`). -/
def largestDim (w : Dim → ℚ) : Dim :=
  dimList.foldl (fun best d => if w d > w best then d else best) .D1

/-- Last score recorded for a dimension id: Python builds
`{score.dimension_id: score for score in dimension_scores}`, where a later
entry overwrites an earlier one, and then looks ids up in that dict. -/
def lookupDim (scores : List DimensionScore) (d : Dim) : Option DimensionScore :=
  (scores.filter (fun s => s.dimension_id = d)).getLast?

/-- Python's `str.startswith`, on the character lists of the strings. -/
def strStartsWith (s pre : String) : Bool := pre.data.isPrefixOf s.data

end AIHE

namespace AIHE.CalcPy

/-- The four organisation archetypes (`class Archetyp(Enum)`). -/
inductive Archetyp where
  | CHAOTIC_DOER | CAUTIOUS_CORPORATE | STAGNANT_ESTABLISHED | BALANCED_TRANSFORMER
deriving DecidableEq, Repr

/-- The 12 tension pairs of the root engine (`SPANNUNGSPAARE`). -/
def SPANNUNGSPAARE : List (Dim × Dim) :=
  [(.D1, .D2), (.D1, .D3), (.D1, .D4), (.D1, .D5),
   (.D2, .D3), (.D2, .D6), (.D3, .D4), (.D3, .D6),
   (.D4, .D5), (.D5, .D6), (.D6, .D7), (.D7, .D8)]

/-- Root `AIHECalculationEngine.calculate_eqi`:
`EQI = 1 - total_gap / 24`, clamped into `[0,1]`.  No shape guard. -/
def calculate_eqi (dimension_scores : List DimensionScore) : ℚ :=
  let total_gap := (dimension_scores.map (fun s => s.gap)).sum
  max 0 (min 1 (1 - total_gap / 24))

/-- Root `AIHECalculationEngine.calculate_rgi`:
weighted sum of ist values over 4, clamped into `[0,1]`. -/
def calculate_rgi (dimension_scores : List DimensionScore) : ℚ :=
  let weighted_sum := (dimension_scores.map (fun s => s.ist_value * s.dynamic_weight)).sum
  max 0 (min 1 (weighted_sum / 4))

/-- Root `AIHECalculationEngine.calculate_si`: for each of the 12 pairs with
both members present, `|ist_a - ist_b| * (w_a + w_b)/2`; total over 6,
clamped into `[0,1]`. -/
def calculate_si (dimension_scores : List DimensionScore) : ℚ :=
  let total := (SPANNUNGSPAARE.map (fun p =>
    match lookupDim dimension_scores p.1, lookupDim dimension_scores p.2 with
    | some s1, some s2 =>
        |s1.ist_value - s2.ist_value| * ((s1.dynamic_weight + s2.dynamic_weight) / 2)
    | _, _ => 0)).sum
  max 0 (min 1 (total / 6))

/-- Root `AIHECalculationEngine.calculate_sbs`:
`(EQI + (1 - SI) + RGI) / 3`, clamped into `[0,1]`. -/
def calculate_sbs (eqi si rgi : ℚ) : ℚ :=
  max 0 (min 1 ((eqi + (1 - si) + rgi) / 3))

/-- Root `AIHECalculationEngine.calculate_context_score`: the 10-factor
weighted variant; any list that is not exactly 10 factors yields 0.5. -/
def calculate_context_score (context_factors : List ContextFactor) : ℚ :=
  if context_factors = [] ∨ context_factors.length ≠ 10 then 0.5
  else
    let weights : List ℚ := [0.12, 0.11, 0.10, 0.09, 0.11, 0.10, 0.12, 0.08, 0.09, 0.08]
    let weighted_sum :=
      ((context_factors.zip weights).map (fun q => (q.1.factor_value : ℚ) * q.2)).sum
    max 0 (min 1 (weighted_sum / 3))

/-- Root `DynamicWeightingEngine._load_base_weights`. -/
def load_base_weights (is_kmu : Bool) : Dim → ℚ :=
  if is_kmu then fun d =>
    match d with
    | .D1 => 0.10 | .D2 => 0.15 | .D3 => 0.15 | .D4 => 0.15
    | .D5 => 0.10 | .D6 => 0.10 | .D7 => 0.15 | .D8 => 0.10
  else fun _ => 0.125

/-- Root rule 1: every dimension score with `gap <= 1.5` multiplies its
dimension's weight by 1.2. -/
def apply_rule_1_tight_gaps (weights : Dim → ℚ) (dimension_scores : List DimensionScore) :
    Dim → ℚ :=
  dimension_scores.foldl (fun w s =>
    if s.gap ≤ 1.5 then updW w s.dimension_id (w s.dimension_id * 1.2) else w) weights

/-- Root rule 2: every dimension score with `gap > 1.5` multiplies its
dimension's weight by 1.2. -/
def apply_rule_2_large_gaps (weights : Dim → ℚ) (dimension_scores : List DimensionScore) :
    Dim → ℚ :=
  dimension_scores.foldl (fun w s =>
    if s.gap > 1.5 then updW w s.dimension_id (w s.dimension_id * 1.2) else w) weights

/-- Root rule 3: tech–culture tension between D6 and D3 on signed gaps. -/
def apply_rule_3_high_tension (weights : Dim → ℚ) (dimension_scores : List DimensionScore) :
    Dim → ℚ :=
  match lookupDim dimension_scores .D6, lookupDim dimension_scores .D3 with
  | some s6, some s3 =>
      let gap_d6 := s6.ist_value - s6.soll_value
      let gap_d3 := s3.ist_value - s3.soll_value
      if |gap_d6 - gap_d3| > 3 then
        if gap_d3 < gap_d6 then
          let w1 := updW weights .D3 (weights .D3 * 1.3)
          updW w1 .D6 (w1 .D6 * 1.1)
        else
          let w1 := updW weights .D6 (weights .D6 * 1.3)
          updW w1 .D3 (w1 .D3 * 1.1)
      else weights
  | _, _ => weights

/-- Root rule 4: context complexity adjustment. -/
def apply_rule_4_context (weights : Dim → ℚ) (context_score : ℚ) : Dim → ℚ :=
  if context_score < 0.2 then updW weights .D7 (weights .D7 * 1.2)
  else if context_score > 0.8 then
    let w1 := updW weights .D1 (weights .D1 * 1.2)
    updW w1 .D2 (w1 .D2 * 1.2)
  else weights

/-- Root `DynamicWeightingEngine._is_in_critical_tension`: the body is a stub
that returns `False` unconditionally (its docstring documents the intended
check of the 12 tension pairs against intensity 3.0, and the inline comment
admits the simplification). -/
def is_in_critical_tension (_dimension_id : Dim) (_dimension_scores : List DimensionScore) :
    Bool := false

/-- Root rule 5: dampen dimensions with `ist > 3.5 and ist >= soll` that are
not flagged by `is_in_critical_tension`. -/
def apply_rule_5_above_average (weights : Dim → ℚ) (dimension_scores : List DimensionScore) :
    Dim → ℚ :=
  dimension_scores.foldl (fun w s =>
    if s.ist_value > 3.5 ∧ s.ist_value ≥ s.soll_value ∧
        ¬ is_in_critical_tension s.dimension_id dimension_scores = true then
      updW w s.dimension_id (w s.dimension_id * 0.8)
    else w) weights

/-- Root `DynamicWeightingEngine._get_archetyp_factors`. -/
def get_archetyp_factors (archetyp : Archetyp) : Dim → ℚ :=
  match archetyp with
  | .CHAOTIC_DOER => fun d =>
      match d with
      | .D1 => 1.5 | .D2 => 1.4 | .D3 => 0.9 | .D4 => 1.1
      | .D5 => 1.1 | .D6 => 0.7 | .D7 => 1.3 | .D8 => 1.2
  | .CAUTIOUS_CORPORATE => fun d =>
      match d with
      | .D1 => 0.8 | .D2 => 1.0 | .D3 => 1.5 | .D4 => 1.4
      | .D5 => 1.0 | .D6 => 1.3 | .D7 => 1.0 | .D8 => 1.1
  | .STAGNANT_ESTABLISHED => fun d =>
      match d with
      | .D1 => 1.2 | .D2 => 1.4 | .D3 => 1.3 | .D4 => 1.2
      | .D5 => 1.0 | .D6 => 1.2 | .D7 => 1.0 | .D8 => 1.3
  | .BALANCED_TRANSFORMER => fun _ => 1.0

/-- Root rule 6: multiply every weight by the archetype factor. -/
def apply_rule_6_archetyp (weights : Dim → ℚ) (archetyp : Archetyp) : Dim → ℚ :=
  fun d => weights d * get_archetyp_factors archetyp d

/-- Root step 8 (`_apply_minimum_security`): clamp weights below 1% up to 1%. -/
def apply_minimum_security (weights : Dim → ℚ) : Dim → ℚ :=
  fun d => if weights d < 0.01 then 0.01 else weights d

/-- Root `DynamicWeightingEngine._round_and_correct`: round each weight to 3
decimals; if the rounded sum misses 1.0 by more than 0.0001, add the whole
residual to the (first) largest weight. -/
def round_and_correct (weights : Dim → ℚ) : Dim → ℚ :=
  let rounded := fun d => round3 (weights d)
  let summe := wsum rounded
  let differenz := 1 - summe
  if |differenz| > 0.0001 then
    updW rounded (largestDim rounded) (rounded (largestDim rounded) + differenz)
  else rounded

/-- Root step 9 (`_normalize_weights`): divide by the sum, then
`_round_and_correct`. -/
def normalize_weights (weights : Dim → ℚ) : Dim → ℚ :=
  let summe := wsum weights
  round_and_correct (fun d => weights d / summe)

/-- Root `DynamicWeightingEngine.calculate_dynamic_weights`: the full 8-rule
pipeline. -/
def calculate_dynamic_weights (dimension_scores : List DimensionScore)
    (context_score : ℚ) (archetyp : Archetyp) (is_kmu : Bool) : Dim → ℚ :=
  let w0 := load_base_weights is_kmu
  let w1 := apply_rule_1_tight_gaps w0 dimension_scores
  let w2 := apply_rule_2_large_gaps w1 dimension_scores
  let w3 := apply_rule_3_high_tension w2 dimension_scores
  let w4 := apply_rule_4_context w3 context_score
  let w5 := apply_rule_5_above_average w4 dimension_scores
  let w6 := apply_rule_6_archetyp w5 archetyp
  let w7 := apply_minimum_security w6
  normalize_weights w7

/-- Root `GapAnalysisEngine.calculate_subdimension_gap` (no rounding). -/
def calculate_subdimension_gap (ist_value soll_value : ℚ) : ℚ × ℚ :=
  let gap := |ist_value - soll_value|
  (gap, gap / 4 * 100)

/-- Root `GapAnalysisEngine.calculate_priority_level`: thresholds 0.8 / 0.5
at the last two steps. -/
def calculate_priority_level (ist_value gap : ℚ) : PriorityLevel :=
  if ist_value < 2 ∧ gap > 1.5 then .CRITICAL
  else if ist_value < 2.5 ∧ gap > 1 then .HIGH
  else if gap > 0.8 then .HIGH
  else if gap > 0.5 then .MEDIUM
  else .LOW

/-- One entry of the recommendation list built by
`GapAnalysisEngine.generate_recommendations`. -/
structure Recommendation where
  dimension_id : Dim
  priority : PriorityLevel
  gap : ℚ
  gap_percent : ℚ
  description : String
  ist_value : ℚ
  soll_value : ℚ
deriving DecidableEq, Repr

/-- The record appended for one dimension score. -/
def mkRecommendation (s : DimensionScore) : Recommendation :=
  let gp := calculate_subdimension_gap s.ist_value s.soll_value
  { dimension_id := s.dimension_id
    priority := calculate_priority_level s.ist_value gp.1
    gap := gp.1
    gap_percent := gp.2
    description := "Dimension " ++ dimName s.dimension_id ++ " benötigt Aufmerksamkeit"
    ist_value := s.ist_value
    soll_value := s.soll_value }

/-- The filter condition: only CRITICAL and HIGH records are kept
(`if priority in ["CRITICAL", "HIGH"]`). -/
def isActionable (s : DimensionScore) : Prop :=
  (mkRecommendation s).priority = .CRITICAL ∨ (mkRecommendation s).priority = .HIGH

instance (s : DimensionScore) : Decidable (isActionable s) := by
  unfold isActionable; infer_instance

/-- The sort order of `recommendations.sort(key=lambda x:
(priority_order[x["priority"]], -x["gap"]))`: lexicographic on the priority
rank and the negated gap. -/
def recLE (a b : Recommendation) : Prop :=
  priority_order a.priority < priority_order b.priority ∨
    (priority_order a.priority = priority_order b.priority ∧ b.gap ≤ a.gap)

instance : DecidableRel recLE := fun a b => by
  unfold recLE; infer_instance

/-- Root `GapAnalysisEngine.generate_recommendations`: build a record per
CRITICAL/HIGH dimension in input order, then sort stably by
`(priority_order, -gap)`.  Python's `list.sort` is stable, and a stable sort
by a total preorder is unique, so `List.insertionSort` (also stable) models
it exactly. -/
def generate_recommendations (dimension_scores : List DimensionScore) :
    List Recommendation :=
  List.insertionSort recLE
    ((dimension_scores.filter (fun s => isActionable s)).map mkRecommendation)

end AIHE.CalcPy



namespace AIHE.Backend

/-- Backend tension pairs (`TENSION_PAIRS`, a different list of 12). -/
def TENSION_PAIRS : List (Dim × Dim) :=
  [(.D6, .D3), (.D1, .D6), (.D2, .D4), (.D5, .D7),
   (.D1, .D8), (.D3, .D4), (.D2, .D1), (.D6, .D5),
   (.D7, .D8), (.D3, .D1), (.D4, .D6), (.D2, .D7)]

/-- Backend `calculate_eqi`: returns 0.0 unless exactly 8 scores, otherwise
`round(1 - min(1, total_gap / 24), 3)`. -/
def calculate_eqi (dimension_scores : List DimensionScore) : ℚ :=
  if dimension_scores = [] ∨ dimension_scores.length ≠ 8 then 0
  else
    let total_gap := (dimension_scores.map (fun s => |s.ist_value - s.soll_value|)).sum
    round3 (1 - min 1 (total_gap / (8 * 3)))

/-- Backend `calculate_rgi`: returns 0.0 unless exactly 8 scores, otherwise
`round(weighted_sum / 4, 3)` with no clamping. -/
def calculate_rgi (dimension_scores : List DimensionScore) : ℚ :=
  if dimension_scores = [] ∨ dimension_scores.length ≠ 8 then 0
  else
    let weighted_sum := (dimension_scores.map (fun s => s.ist_value * s.dynamic_weight)).sum
    round3 (weighted_sum / 4)

/-- Backend `calculate_si`: signed-gap differences over the backend pair
list, each pair weighted `1/12`; `round(min(total/6, 1), 3)`. -/
def calculate_si (dimension_scores : List DimensionScore) : ℚ :=
  if dimension_scores = [] ∨ dimension_scores.length ≠ 8 then 0
  else
    let total := (TENSION_PAIRS.map (fun p =>
      match lookupDim dimension_scores p.1, lookupDim dimension_scores p.2 with
      | some sa, some sb =>
          |(sa.ist_value - sa.soll_value) - (sb.ist_value - sb.soll_value)| *
            (1 / (TENSION_PAIRS.length : ℚ))
      | _, _ => 0)).sum
    round3 (min (total / 6) 1)

/-- Backend `calculate_sbs`: `round((eqi + (1 - si) + rgi) / 3, 3)`. -/
def calculate_sbs (eqi si rgi : ℚ) : ℚ :=
  round3 ((eqi + (1 - si) + rgi) / 3)

/-- The 8 expected context factor names of the backend engine. -/
def expected_factors : List String :=
  ["Organisationsgröße", "Branchendynamik", "Regulatorischer Druck",
   "Technologische Komplexität", "Change-Historie", "Marktdynamik",
   "Wettbewerbsdruck", "Ressourcenverfügbarkeit"]

/-- Value recorded for a factor name: the loop `factor_values[name] = value`
keeps the last occurrence; `factor_values.get(name, 1)` defaults to 1. -/
def factor_value_of (context_factors : List ContextFactor) (name : String) : ℤ :=
  (((context_factors.filter (fun f => f.factor_name = name)).getLast?).map
    (fun f => f.factor_value)).getD 1

/-- The summed effective factor values, with the inverted scale applied to
`"Ressourcenverfügbarkeit"`. -/
def context_total (context_factors : List ContextFactor) : ℤ :=
  (expected_factors.map (fun name =>
    let value := factor_value_of context_factors name
    if name = "Ressourcenverfügbarkeit" then 3 - value else value)).sum

/-- Backend `calculate_context_score`: neutral 0.5 on an empty list,
otherwise `round(total / 24, 3)`. -/
def calculate_context_score (context_factors : List ContextFactor) : ℚ :=
  if context_factors = [] then 0.5
  else round3 ((context_total context_factors : ℚ) / 24)

/-- Backend `ARCHETYPE_WEIGHTS` with the `.get(..., BALANCED_TRANSFORMER)`
fallback for unknown archetype strings. -/
def ARCHETYPE_WEIGHTS (archetype : String) : Dim → ℚ :=
  if archetype = "CHAOTIC_DOER" then fun d =>
    match d with
    | .D1 => 0.20 | .D2 => 0.18 | .D3 => 0.10 | .D4 => 0.12
    | .D5 => 0.12 | .D6 => 0.08 | .D7 => 0.10 | .D8 => 0.10
  else if archetype = "CAUTIOUS_CORPORATE" then fun d =>
    match d with
    | .D1 => 0.15 | .D2 => 0.15 | .D3 => 0.15 | .D4 => 0.15
    | .D5 => 0.10 | .D6 => 0.12 | .D7 => 0.08 | .D8 => 0.10
  else if archetype = "STAGNANT_ESTABLISHED" then fun d =>
    match d with
    | .D1 => 0.12 | .D2 => 0.18 | .D3 => 0.18 | .D4 => 0.15
    | .D5 => 0.10 | .D6 => 0.15 | .D7 => 0.07 | .D8 => 0.05
  else fun _ => 0.125

/-- Backend `DynamicWeightingEngine.calculate_dynamic_weights`: base weights
times the uniform context factor `1 + (context_score - 0.5) * 0.2`,
normalized, then rounded to 3 decimals.  The `dimension_scores` argument is
accepted (default `None` in the source) but never read. -/
def calculate_dynamic_weights (archetype : String) (context_score : ℚ)
    (_dimension_scores : List DimensionScore) : Dim → ℚ :=
  let base_weights := ARCHETYPE_WEIGHTS archetype
  let context_factor := 1 + (context_score - 0.5) * 0.2
  let adjusted_weights := fun d => base_weights d * context_factor
  let total_weight := wsum adjusted_weights
  let normalized_weights := fun d => adjusted_weights d / total_weight
  fun d => round3 (normalized_weights d)

/-- Backend `GapAnalysisEngine.calculate_subdimension_gap` (rounded). -/
def calculate_subdimension_gap (ist_value soll_value : ℚ) : ℚ × ℚ :=
  let gap := |soll_value - ist_value|
  (round1 gap, round2 (gap / 4 * 100))

/-- Backend `GapAnalysisEngine.calculate_priority_level`: thresholds 1.5 /
0.8 at the last two steps, as in the specification. -/
def calculate_priority_level (ist_value gap : ℚ) : PriorityLevel :=
  if ist_value < 2 ∧ gap > 1.5 then .CRITICAL
  else if ist_value < 2.5 ∧ gap > 1 then .HIGH
  else if gap > 1.5 then .HIGH
  else if gap > 0.8 then .MEDIUM
  else .LOW

end AIHE.Backend

namespace AIHE.Crud

/-- The 16 expected subdimension ids from `AssessmentCompletion`'s
`validate_all_subdimensions`. -/
def expected_subdimensions : List String :=
  ["D1.1", "D1.2", "D2.1", "D2.2", "D3.1", "D3.2", "D4.1", "D4.2",
   "D5.1", "D5.2", "D6.1", "D6.2", "D7.1", "D7.2", "D8.1", "D8.2"]

/-- The pydantic validator on `AssessmentCompletion.subdimension_scores`:
reject unless exactly 16 scores are supplied and every expected subdimension
id is present.  A `ValueError` raised here surfaces to the API caller as an
invalid-input (HTTP 422) failure before `complete_assessment` runs. -/
def validate_all_subdimensions (v : List SubdimensionScore) :
    Except String (List SubdimensionScore) :=
  if v.length ≠ 16 then .error "Must provide exactly 16 subdimension scores"
  else if ¬ (expected_subdimensions.all
      (fun e => (v.map (fun s => s.subdimension_id)).contains e)) then
    .error "Missing subdimension scores"
  else .ok v

/-- The aggregation step of `CRUDAssessment.complete_assessment`: for each of
the 8 dimensions, collect the subdimension scores whose id starts with
`"D{n}."`; only when exactly 2 are present is a dimension score produced
(mean of the two children, rounded to 1 decimal). -/
def aggregate_dimension_scores (subdimension_scores : List SubdimensionScore)
    (dynamic_weights : Dim → ℚ) : List DimensionScore :=
  dimList.filterMap (fun d =>
    let dim_subdimensions := subdimension_scores.filter
      (fun s => strStartsWith s.subdimension_id (dimName d ++ "."))
    if dim_subdimensions.length = 2 then
      let avg_ist := (dim_subdimensions.map (fun s => s.ist_value)).sum / 2
      let avg_soll := (dim_subdimensions.map (fun s => s.soll_value)).sum / 2
      some { dimension_id := d
             ist_value := round1 avg_ist
             soll_value := round1 avg_soll
             dynamic_weight := dynamic_weights d }
    else none)

/-- The completion path, as reachable through the API: the request body is
parsed into `AssessmentCompletion` (running the validator), then
`CRUDAssessment.complete_assessment` computes the context score, the dynamic
weights, the aggregated dimension scores and all metrics. -/
def complete_assessment (subdimension_scores : List SubdimensionScore)
    (context_factors : List ContextFactor) (organisation_archetype : String) :
    Except String (List DimensionScore × (ℚ × ℚ × ℚ × ℚ × ℚ)) :=
  match validate_all_subdimensions subdimension_scores with
  | .error e => .error e
  | .ok scores =>
      let context_score := Backend.calculate_context_score context_factors
      let dynamic_weights :=
        Backend.calculate_dynamic_weights organisation_archetype context_score []
      let dimension_scores := aggregate_dimension_scores scores dynamic_weights
      let eqi := Backend.calculate_eqi dimension_scores
      let rgi := Backend.calculate_rgi dimension_scores
      let si := Backend.calculate_si dimension_scores
      let sbs := Backend.calculate_sbs eqi si rgi
      .ok (dimension_scores, (eqi, rgi, si, sbs, context_score))

end AIHE.Crud

namespace AIHE

/-- A balanced demo assessment: eight dimensions at ist 2.5, soll 3.0,
weight 0.125 each. -/
def demoScores : List DimensionScore :=
  [⟨.D1, 2.5, 3.0, 0.125⟩, ⟨.D2, 2.5, 3.0, 0.125⟩, ⟨.D3, 2.5, 3.0, 0.125⟩,
   ⟨.D4, 2.5, 3.0, 0.125⟩, ⟨.D5, 2.5, 3.0, 0.125⟩, ⟨.D6, 2.5, 3.0, 0.125⟩,
   ⟨.D7, 2.5, 3.0, 0.125⟩, ⟨.D8, 2.5, 3.0, 0.125⟩]

/-- Scores where D1 is saturated (ist 4.0 ≥ soll 3.5) while standing in a
critical tension with D2 through the pair (D1, D2): the signed gaps are
+0.5 and −3.0, so the pair's tension intensity is 3.5 > 3.0. -/
def tensionScores : List DimensionScore :=
  [⟨.D1, 4.0, 3.5, 0.125⟩, ⟨.D2, 1.0, 4.0, 0.125⟩, ⟨.D3, 2.0, 2.0, 0.125⟩,
   ⟨.D4, 2.0, 2.0, 0.125⟩, ⟨.D5, 2.0, 2.0, 0.125⟩, ⟨.D6, 2.0, 2.0, 0.125⟩,
   ⟨.D7, 2.0, 2.0, 0.125⟩, ⟨.D8, 2.0, 2.0, 0.125⟩]

/-- Eight maxed-out dimensions whose weights sum to 1.0008 (within the 1e-3
weight-sum tolerance) — the input exhibiting backend RGI > 1. -/
def saturatedScores : List DimensionScore :=
  [⟨.D1, 4.0, 4.0, 0.1258⟩, ⟨.D2, 4.0, 4.0, 0.125⟩, ⟨.D3, 4.0, 4.0, 0.125⟩,
   ⟨.D4, 4.0, 4.0, 0.125⟩, ⟨.D5, 4.0, 4.0, 0.125⟩, ⟨.D6, 4.0, 4.0, 0.125⟩,
   ⟨.D7, 4.0, 4.0, 0.125⟩, ⟨.D8, 4.0, 4.0, 0.125⟩]

/-- Two dimensions needing action: D1 is CRITICAL (ist 1.5, gap 2.0) and D2
is HIGH (ist 3.0, gap 1.0). -/
def actionScores : List DimensionScore :=
  [⟨.D1, 1.5, 3.5, 0.125⟩, ⟨.D2, 3.0, 4.0, 0.125⟩]

/-- The spec scenario for the context score: all 8 canonical factors at 1. -/
def unitFactors : List ContextFactor :=
  Backend.expected_factors.map (fun name => ⟨name, 1⟩)

/-- A constant weight dict used to exercise normalization. -/
def sevenths : Dim → ℚ := fun _ => 1/7

/-- Modelled from the spec: the critical-tension flag that
`_is_in_critical_tension` documents but does not implement — a dimension is
under critical tension when some of the 12 `SPANNUNGSPAARE` it participates
in has tension intensity above 3.0, computing each pair's intensity from the
signed gaps exactly as rule 3 does. -/
def specCriticalTension (dimension_id : Dim) (dimension_scores : List DimensionScore) :
    Bool :=
  CalcPy.SPANNUNGSPAARE.any (fun p =>
    decide (p.1 = dimension_id ∨ p.2 = dimension_id) &&
      match lookupDim dimension_scores p.1, lookupDim dimension_scores p.2 with
      | some sa, some sb =>
          decide (|(sa.ist_value - sa.soll_value) - (sb.ist_value - sb.soll_value)| > 3)
      | _, _ => false)

end AIHE

namespace AIHE

lemma wsum_eq (w : Dim → ℚ) :
    wsum w = w .D1 + w .D2 + w .D3 + w .D4 + w .D5 + w .D6 + w .D7 + w .D8 := by
  simp [wsum, dimList]
  ring

lemma updW_self (w : Dim → ℚ) (d : Dim) (v : ℚ) : updW w d v d = v := by
  simp [updW]

lemma updW_ne (w : Dim → ℚ) (d e : Dim) (v : ℚ) (h : e ≠ d) : updW w d v e = w e := by
  simp [updW, h]

lemma wsum_updW (w : Dim → ℚ) (d : Dim) (v : ℚ) :
    wsum (updW w d v) = wsum w - w d + v := by
  cases d <;> simp [wsum_eq, updW] <;> ring

lemma le_foldl_largest (w : Dim → ℚ) :
    ∀ (l : List Dim) (init : Dim),
      w init ≤ w (l.foldl (fun best d => if w d > w best then d else best) init) ∧
      ∀ d ∈ l, w d ≤ w (l.foldl (fun best d => if w d > w best then d else best) init)
  | [], init => by simp
  | e :: t, init => by
    have ih := le_foldl_largest w t (if w e > w init then e else init)
    rw [List.foldl_cons]
    refine ⟨le_trans ?_ ih.1, fun d hd => ?_⟩
    · split <;> [linarith [le_of_lt (by assumption : w init < w e)]; exact le_refl _]
    · rcases List.mem_cons.mp hd with h | h
      · subst h
        refine le_trans ?_ ih.1
        split
        · exact le_refl _
        · exact le_of_not_lt (by assumption)
      · exact ih.2 d h

lemma le_largestDim (w : Dim → ℚ) (d : Dim) : w d ≤ w (largestDim w) := by
  have h := (le_foldl_largest w dimList .D1).2 d (by cases d <;> simp [dimList])
  exact h

lemma round3_mono {x y : ℚ} (h : x ≤ y) : round3 x ≤ round3 y := by
  unfold round3
  have h1 : ⌊x * 1000 + 1/2⌋ ≤ ⌊y * 1000 + 1/2⌋ := Int.floor_le_floor (by linarith)
  have h2 : ((⌊x * 1000 + 1/2⌋ : ℤ) : ℚ) ≤ ((⌊y * 1000 + 1/2⌋ : ℤ) : ℚ) := by
    exact_mod_cast h1
  linarith

lemma round3_le (x : ℚ) : round3 x ≤ x + 1/2000 := by
  unfold round3
  have := Int.floor_le (x * 1000 + 1/2)
  linarith

lemma lt_round3 (x : ℚ) : x - 1/2000 < round3 x := by
  unfold round3
  have := Int.sub_one_lt_floor (x * 1000 + 1/2)
  linarith

lemma round3_nonneg {x : ℚ} (h : 0 ≤ x) : 0 ≤ round3 x := by
  have h0 : round3 (0:ℚ) = 0 := by norm_num [round3]
  linarith [round3_mono h, h0.symm.le]

lemma round3_le_one {x : ℚ} (h : x ≤ 1) : round3 x ≤ 1 := by
  have h1 : round3 (1:ℚ) = 1 := by norm_num [round3]
  linarith [round3_mono h]

lemma round3_ge_centi {x : ℚ} (h : 1/100 ≤ x) : 1/100 ≤ round3 x := by
  have hc : round3 (1/100 : ℚ) = 1/100 := by norm_num [round3]
  linarith [round3_mono h]

lemma clamp01_mem (x : ℚ) : 0 ≤ max 0 (min 1 x) ∧ max 0 (min 1 x) ≤ 1 := by
  constructor
  · exact le_max_left 0 _
  · exact max_le (by norm_num) (min_le_left 1 x)

end AIHE

namespace AIHE

/-- C3 counterexample: at `ist = 3.0`, `gap = 1.0` the canonical cascade's
first three conditions fail and the fourth (`gap > 0.8`) holds, so the
claimed cascade yields MEDIUM — but the root variant's
`calculate_priority_level` returns HIGH. -/
theorem c3_counterexample :
    CalcPy.calculate_priority_level 3 1 = PriorityLevel.HIGH ∧
    ¬ ((3:ℚ) < 2 ∧ (1:ℚ) > 1.5) ∧ ¬ ((3:ℚ) < 2.5 ∧ (1:ℚ) > 1) ∧
    ¬ ((1:ℚ) > 1.5) ∧ ((1:ℚ) > 0.8) ∧
    Backend.calculate_priority_level 3 1 = PriorityLevel.MEDIUM ∧
    PriorityLevel.HIGH ≠ PriorityLevel.MEDIUM := by
  refine ⟨?_, by norm_num, by norm_num, by norm_num, by norm_num, ?_, by decide⟩
  · norm_num [CalcPy.calculate_priority_level]
  · norm_num [Backend.calculate_priority_level]

/-- C3 amended: the backend variant of `calculate_priority_level` follows the
canonical ordered cascade (first match wins) with thresholds 1.5 / 0.8 at
steps 3–4, and realizes the two spec scenarios; the root variant follows the
same first two steps but uses thresholds 0.8 / 0.5 at steps 3–4. -/
theorem c3_canonical_cascade (ist gap : ℚ) :
    (ist < 2 ∧ gap > 1.5 → Backend.calculate_priority_level ist gap = .CRITICAL) ∧
    (¬ (ist < 2 ∧ gap > 1.5) → ist < 2.5 ∧ gap > 1 →
      Backend.calculate_priority_level ist gap = .HIGH) ∧
    (¬ (ist < 2 ∧ gap > 1.5) → ¬ (ist < 2.5 ∧ gap > 1) → gap > 1.5 →
      Backend.calculate_priority_level ist gap = .HIGH) ∧
    (¬ (ist < 2 ∧ gap > 1.5) → ¬ (ist < 2.5 ∧ gap > 1) → ¬ (gap > 1.5) → gap > 0.8 →
      Backend.calculate_priority_level ist gap = .MEDIUM) ∧
    (¬ (ist < 2 ∧ gap > 1.5) → ¬ (ist < 2.5 ∧ gap > 1) → ¬ (gap > 1.5) → ¬ (gap > 0.8) →
      Backend.calculate_priority_level ist gap = .LOW) ∧
    Backend.calculate_priority_level 1.9 1.6 = .CRITICAL ∧
    Backend.calculate_priority_level 3.8 0.2 = .LOW ∧
    (¬ (ist < 2 ∧ gap > 1.5) → ¬ (ist < 2.5 ∧ gap > 1) →
      ((gap > 0.8 → CalcPy.calculate_priority_level ist gap = .HIGH) ∧
       (¬ (gap > 0.8) → gap > 0.5 → CalcPy.calculate_priority_level ist gap = .MEDIUM) ∧
       (¬ (gap > 0.8) → ¬ (gap > 0.5) → CalcPy.calculate_priority_level ist gap = .LOW))) := by
  unfold Backend.calculate_priority_level CalcPy.calculate_priority_level
  refine ⟨fun h1 => by rw [if_pos h1],
    fun h1 h2 => by rw [if_neg h1, if_pos h2],
    fun h1 h2 h3 => by rw [if_neg h1, if_neg h2, if_pos h3],
    fun h1 h2 h3 h4 => by rw [if_neg h1, if_neg h2, if_neg h3, if_pos h4],
    fun h1 h2 h3 h4 => by rw [if_neg h1, if_neg h2, if_neg h3, if_neg h4],
    by norm_num, by norm_num,
    fun h1 h2 => ⟨fun h3 => by rw [if_neg h1, if_neg h2, if_pos h3],
      fun h3 h4 => by rw [if_neg h1, if_neg h2, if_neg h3, if_pos h4],
      fun h3 h4 => by rw [if_neg h1, if_neg h2, if_neg h3, if_neg h4]⟩⟩

/-- C3 witness: the cascade applied at the two spec scenario points and at
the root-variant divergence point. -/
theorem c3_canonical_cascade_witness :
    Backend.calculate_priority_level 1.9 1.6 = PriorityLevel.CRITICAL ∧
    CalcPy.calculate_priority_level 3 1 = PriorityLevel.HIGH :=
  ⟨(c3_canonical_cascade 1.9 1.6).1 (by norm_num),
   ((c3_canonical_cascade 3 1).2.2.2.2.2.2.2 (by norm_num) (by norm_num)).1 (by norm_num)⟩

/-- C4 counterexample: the root variant of `calculate_eqi` has no length
guard, and on the empty list it returns 1.0, not the claimed 0.0. -/
theorem c4_counterexample :
    ([] : List DimensionScore).length ≠ 8 ∧
    CalcPy.calculate_eqi [] = 1 ∧ CalcPy.calculate_eqi [] ≠ 0 := by
  refine ⟨by norm_num, ?_, ?_⟩ <;> norm_num [CalcPy.calculate_eqi]

/-- C4 amended: for every dimension-score list whose length is not exactly 8
the backend variants of `calculate_eqi`, `calculate_rgi` and `calculate_si`
return 0.0; the root variants have no such guard (root `calculate_eqi` of
the empty list is 1.0). -/
theorem c4_shape_guard (dimension_scores : List DimensionScore)
    (h : dimension_scores.length ≠ 8) :
    Backend.calculate_eqi dimension_scores = 0 ∧
    Backend.calculate_rgi dimension_scores = 0 ∧
    Backend.calculate_si dimension_scores = 0 := by
  refine ⟨?_, ?_, ?_⟩ <;>
    simp [Backend.calculate_eqi, Backend.calculate_rgi, Backend.calculate_si, h]

/-- C4 witness: the guard at the empty list. -/
theorem c4_shape_guard_witness :
    Backend.calculate_eqi [] = 0 ∧ Backend.calculate_rgi [] = 0 ∧
    Backend.calculate_si [] = 0 :=
  c4_shape_guard [] (by norm_num)

set_option maxHeartbeats 1600000 in
/-- C6: at `tensionScores`, dimension D1 (ist 4.0 > 3.5, ist ≥ soll 3.5) is
under critical tension in the spec's sense — the pair (D1, D2) has tension
intensity 3.5 > 3.0 — yet because `_is_in_critical_tension` is a stub that
returns `False` unconditionally, rule 5 still multiplies D1's weight by 0.8,
where the claim (and the stub's own docstring) require it to stay unchanged. -/
theorem c6_rule5_ignores_critical_tension :
    specCriticalTension .D1 tensionScores = true ∧
    CalcPy.is_in_critical_tension .D1 tensionScores = false ∧
    CalcPy.apply_rule_5_above_average (fun _ => 0.125) tensionScores .D1 = 0.1 ∧
    (0.1 : ℚ) ≠ 0.125 := by
  refine ⟨?_, rfl, ?_, by norm_num⟩
  · simp [specCriticalTension, CalcPy.SPANNUNGSPAARE, lookupDim, tensionScores]
    norm_num [lt_abs]
  · simp [CalcPy.apply_rule_5_above_average, tensionScores,
      CalcPy.is_in_critical_tension]
    norm_num [updW]

/-- C7: the backend context score equals the rounded sum of the 8 effective
factor values over 24 (missing factors default to 1, the resource factor is
inverted — visible in the two concrete evaluations), the empty list returns
exactly 0.5, and the spec scenario (all 8 factors at 1) yields 0.375. -/
theorem c7_context_score (context_factors : List ContextFactor) :
    (context_factors ≠ [] →
      Backend.calculate_context_score context_factors =
        round3 ((Backend.context_total context_factors : ℚ) / 24)) ∧
    Backend.calculate_context_score [] = 0.5 ∧
    Backend.calculate_context_score unitFactors = 0.375 ∧
    Backend.calculate_context_score [⟨"Marktdynamik", 3⟩] = 0.458 := by
  refine ⟨fun h => by rw [Backend.calculate_context_score, if_neg h], ?_, ?_, ?_⟩
  · norm_num [Backend.calculate_context_score]
  · simp [Backend.calculate_context_score, unitFactors, Backend.expected_factors,
      Backend.context_total, Backend.factor_value_of]
    norm_num [round3]
  · simp [Backend.calculate_context_score, Backend.expected_factors,
      Backend.context_total, Backend.factor_value_of]
    norm_num [round3]

/-- C7 witness: the non-empty branch at the spec scenario input. -/
theorem c7_context_score_witness :
    Backend.calculate_context_score unitFactors =
      round3 ((Backend.context_total unitFactors : ℚ) / 24) :=
  (c7_context_score unitFactors).1
    (by simp [unitFactors, Backend.expected_factors])

end AIHE

namespace AIHE

instance : IsTotal CalcPy.Recommendation CalcPy.recLE :=
  ⟨fun a b => by
    unfold CalcPy.recLE
    rcases lt_trichotomy (priority_order a.priority) (priority_order b.priority) with h | h | h
    · exact .inl (.inl h)
    · rcases le_total b.gap a.gap with hg | hg
      · exact .inl (.inr ⟨h, hg⟩)
      · exact .inr (.inr ⟨h.symm, hg⟩)
    · exact .inr (.inl h)⟩

instance : IsTrans CalcPy.Recommendation CalcPy.recLE :=
  ⟨fun a b c hab hbc => by
    unfold CalcPy.recLE at hab hbc ⊢
    rcases hab with h1 | ⟨h1, g1⟩ <;> rcases hbc with h2 | ⟨h2, g2⟩
    · exact .inl (h1.trans h2)
    · exact .inl (h2 ▸ h1)
    · exact .inl (h1 ▸ h2)
    · exact .inr ⟨h1.trans h2, g2.trans g1⟩⟩

/-- C5: in `_normalize_weights`, with `r` the weights divided by their sum
and rounded to 3 decimals and `residual = 1 − sum(r)`: when
`|residual| > 0.0001` the whole residual is added to the single largest
weight and the returned weights sum to exactly 1.000; when
`|residual| ≤ 0.0001` the rounded weights are returned unchanged. -/
theorem c5_normalization (w : Dim → ℚ) :
    let r := fun d => round3 (w d / wsum w)
    let residual := 1 - wsum r
    (|residual| > 0.0001 →
      CalcPy.normalize_weights w = updW r (largestDim r) (r (largestDim r) + residual) ∧
      wsum (CalcPy.normalize_weights w) = 1) ∧
    (|residual| ≤ 0.0001 → CalcPy.normalize_weights w = r) := by
  intro r residual
  have hnw : CalcPy.normalize_weights w =
      if |residual| > 0.0001 then
        updW r (largestDim r) (r (largestDim r) + residual)
      else r := rfl
  constructor
  · intro h
    rw [hnw, if_pos h]
    refine ⟨rfl, ?_⟩
    rw [wsum_updW]
    show wsum r - r (largestDim r) + (r (largestDim r) + (1 - wsum r)) = 1
    ring
  · intro h
    rw [hnw, if_neg (not_lt.mpr h)]

/-- C5 witness: for the constant weight dict `1/7`, each normalized weight
rounds to exactly 0.125, the residual is 0, and the rounded weights are
returned unchanged. -/
theorem c5_normalization_witness :
    |1 - wsum (fun d => round3 (sevenths d / wsum sevenths))| ≤ 0.0001 ∧
    CalcPy.normalize_weights sevenths =
      fun d => round3 (sevenths d / wsum sevenths) := by
  have h : |1 - wsum (fun d => round3 (sevenths d / wsum sevenths))| ≤ 0.0001 := by
    norm_num [wsum_eq, sevenths, round3]
  exact ⟨h, (c5_normalization sevenths).2 h⟩

/-- C9: the recommendation list holds a record exactly for the input scores
whose computed priority is CRITICAL or HIGH, and is sorted with the priority
rank non-decreasing and, within equal rank, the gap non-increasing. -/
theorem c9_recommendations (dimension_scores : List DimensionScore) :
    (∀ r, r ∈ CalcPy.generate_recommendations dimension_scores ↔
      ∃ s ∈ dimension_scores, CalcPy.isActionable s ∧ r = CalcPy.mkRecommendation s) ∧
    List.Pairwise (fun a b =>
      priority_order a.priority ≤ priority_order b.priority ∧
        (priority_order a.priority = priority_order b.priority → b.gap ≤ a.gap))
      (CalcPy.generate_recommendations dimension_scores) := by
  constructor
  · intro r
    rw [CalcPy.generate_recommendations,
      (List.perm_insertionSort CalcPy.recLE _).mem_iff]
    simp only [List.mem_map, List.mem_filter, decide_eq_true_eq]
    constructor
    · rintro ⟨s, ⟨hs, ha⟩, he⟩
      exact ⟨s, hs, ha, he.symm⟩
    · rintro ⟨s, hs, ha, he⟩
      exact ⟨s, ⟨hs, ha⟩, he.symm⟩
  · have hs := List.sorted_insertionSort CalcPy.recLE
      ((dimension_scores.filter (fun s => CalcPy.isActionable s)).map CalcPy.mkRecommendation)
    refine hs.imp ?_
    intro a b hab
    rcases hab with h | ⟨h, hg⟩
    · exact ⟨le_of_lt h, fun he => absurd he (ne_of_lt h)⟩
    · exact ⟨le_of_eq h, fun _ => hg⟩

/-- C9 witness: the sortedness conclusion at a concrete two-dimension input
with one CRITICAL and one HIGH recommendation. -/
theorem c9_recommendations_witness :
    List.Pairwise (fun a b =>
      priority_order a.priority ≤ priority_order b.priority ∧
        (priority_order a.priority = priority_order b.priority → b.gap ≤ a.gap))
      (CalcPy.generate_recommendations actionScores) :=
  (c9_recommendations actionScores).2

end AIHE

namespace AIHE

lemma wsum_mul (w : Dim → ℚ) (c : ℚ) : wsum (fun d => w d * c) = wsum w * c := by
  simp only [wsum_eq]
  ring

lemma backend_weights_closed (archetype : String) (context_score : ℚ)
    (ds : List DimensionScore) (hc : 1 + (context_score - 0.5) * 0.2 ≠ 0) :
    Backend.calculate_dynamic_weights archetype context_score ds =
      fun d => round3 (Backend.ARCHETYPE_WEIGHTS archetype d /
        wsum (Backend.ARCHETYPE_WEIGHTS archetype)) := by
  funext d
  show round3 (Backend.ARCHETYPE_WEIGHTS archetype d * (1 + (context_score - 0.5) * 0.2) /
    wsum (fun e => Backend.ARCHETYPE_WEIGHTS archetype e * (1 + (context_score - 0.5) * 0.2))) = _
  rw [wsum_mul, mul_div_mul_right _ _ hc]

/-- C10: the backend dynamic-weight engine is independent of its
`context_score` (and of its unused `dimension_scores` argument): the uniform
context multiplier cancels in normalization, leaving the archetype
base-weight table. -/
theorem c10_weights_context_independent (archetype : String) (c1 c2 : ℚ)
    (ds1 ds2 : List DimensionScore)
    (h1 : 0 ≤ c1) (h2 : c1 ≤ 1) (h3 : 0 ≤ c2) (h4 : c2 ≤ 1) :
    Backend.calculate_dynamic_weights archetype c1 ds1 =
      Backend.calculate_dynamic_weights archetype c2 ds2 := by
  have k1 : (1 : ℚ) + (c1 - 0.5) * 0.2 ≠ 0 := by nlinarith
  have k2 : (1 : ℚ) + (c2 - 0.5) * 0.2 ≠ 0 := by nlinarith
  rw [backend_weights_closed archetype c1 ds1 k1,
    backend_weights_closed archetype c2 ds2 k2]

/-- C10 witness: the extreme context scores 0 and 1 (and different
dimension-score arguments) give identical weight dicts. -/
theorem c10_weights_context_independent_witness :
    Backend.calculate_dynamic_weights "CHAOTIC_DOER" 0 [] =
      Backend.calculate_dynamic_weights "CHAOTIC_DOER" 1 demoScores :=
  c10_weights_context_independent "CHAOTIC_DOER" 0 1 [] demoScores
    (by norm_num) (by norm_num) (by norm_num) (by norm_num)

end AIHE

namespace AIHE

lemma sum_map_const_mul (l : List DimensionScore) (c : ℚ) (f : DimensionScore → ℚ) :
    (l.map (fun x => c * f x)).sum = c * (l.map f).sum := by
  induction l with
  | nil => simp
  | cons s t ih => simp [ih]; ring

lemma round3_mem_unit {x : ℚ} (h0 : 0 ≤ x) (h1 : x ≤ 1) :
    0 ≤ round3 x ∧ round3 x ≤ 1 :=
  ⟨round3_nonneg h0, round3_le_one h1⟩

lemma factor_value_of_bounds (fs : List ContextFactor)
    (h : ∀ f ∈ fs, 0 ≤ f.factor_value ∧ f.factor_value ≤ 3) (name : String) :
    0 ≤ Backend.factor_value_of fs name ∧ Backend.factor_value_of fs name ≤ 3 := by
  unfold Backend.factor_value_of
  cases hl : (fs.filter (fun f => f.factor_name = name)).getLast? with
  | none => simp
  | some f =>
      have hmem : f ∈ fs := List.mem_of_mem_filter (List.mem_of_mem_getLast? hl)
      have := h f hmem
      simpa using this

/-- C8 counterexample: eight well-formed dimension scores (ist and soll in
[1,4], nonnegative weights whose sum is within 1e-3 of 1) on which the
backend `calculate_rgi` returns 1.001, outside [0,1]. -/
theorem c8_counterexample :
    saturatedScores.length = 8 ∧
    (∀ s ∈ saturatedScores, 1 ≤ s.ist_value ∧ s.ist_value ≤ 4 ∧
      1 ≤ s.soll_value ∧ s.soll_value ≤ 4 ∧ 0 ≤ s.dynamic_weight) ∧
    |((saturatedScores.map (fun s => s.dynamic_weight)).sum) - 1| ≤ 0.001 ∧
    Backend.calculate_rgi saturatedScores = 1.001 ∧
    ¬ Backend.calculate_rgi saturatedScores ≤ 1 := by
  refine ⟨rfl, ?_, ?_, ?_, ?_⟩
  · intro s hs
    simp [saturatedScores] at hs
    rcases hs with rfl | rfl | rfl | rfl | rfl | rfl | rfl | rfl <;> norm_num
  · norm_num [saturatedScores, abs_le]
  · simp [Backend.calculate_rgi, saturatedScores]
    norm_num [round3]
  · simp [Backend.calculate_rgi, saturatedScores]
    norm_num [round3]

/-- C8 amended: every metric of the root engine is clamped into [0,1] for
all inputs; for the backend engine, EQI and SI always lie in [0,1],
context_score lies in [0,1] when all factor values are in 0..3, RGI lies in
[0,1] when the weights are nonnegative and sum to exactly 1 (with a sum
merely within 1e-3 of 1 it can reach 1.001), and SBS lies in [0,1] whenever
its three arguments do. -/
theorem c8_metric_bounds :
    (∀ scores : List DimensionScore,
      (0 ≤ CalcPy.calculate_eqi scores ∧ CalcPy.calculate_eqi scores ≤ 1) ∧
      (0 ≤ CalcPy.calculate_rgi scores ∧ CalcPy.calculate_rgi scores ≤ 1) ∧
      (0 ≤ CalcPy.calculate_si scores ∧ CalcPy.calculate_si scores ≤ 1)) ∧
    (∀ e s r : ℚ, 0 ≤ CalcPy.calculate_sbs e s r ∧ CalcPy.calculate_sbs e s r ≤ 1) ∧
    (∀ fs : List ContextFactor,
      0 ≤ CalcPy.calculate_context_score fs ∧ CalcPy.calculate_context_score fs ≤ 1) ∧
    (∀ scores : List DimensionScore,
      0 ≤ Backend.calculate_eqi scores ∧ Backend.calculate_eqi scores ≤ 1) ∧
    (∀ scores : List DimensionScore,
      0 ≤ Backend.calculate_si scores ∧ Backend.calculate_si scores ≤ 1) ∧
    (∀ fs : List ContextFactor, (∀ f ∈ fs, 0 ≤ f.factor_value ∧ f.factor_value ≤ 3) →
      0 ≤ Backend.calculate_context_score fs ∧ Backend.calculate_context_score fs ≤ 1) ∧
    (∀ scores : List DimensionScore,
      (∀ x ∈ scores, 0 ≤ x.ist_value ∧ x.ist_value ≤ 4 ∧ 0 ≤ x.dynamic_weight) →
      (scores.map (fun x => x.dynamic_weight)).sum = 1 →
      0 ≤ Backend.calculate_rgi scores ∧ Backend.calculate_rgi scores ≤ 1) ∧
    (∀ e s r : ℚ, 0 ≤ e → e ≤ 1 → 0 ≤ s → s ≤ 1 → 0 ≤ r → r ≤ 1 →
      0 ≤ Backend.calculate_sbs e s r ∧ Backend.calculate_sbs e s r ≤ 1) := by
  refine ⟨fun scores => ⟨clamp01_mem _, clamp01_mem _, clamp01_mem _⟩,
    fun e s r => clamp01_mem _, fun fs => ?_, fun scores => ?_, fun scores => ?_,
    fun fs hf => ?_, fun scores hb hw => ?_, fun e s r he1 he2 hs1 hs2 hr1 hr2 => ?_⟩
  · unfold CalcPy.calculate_context_score
    split
    · norm_num
    · exact clamp01_mem _
  · unfold Backend.calculate_eqi
    split
    · norm_num
    · have ht : 0 ≤ (scores.map (fun s => |s.ist_value - s.soll_value|)).sum :=
        List.sum_nonneg (by
          intro x hx
          obtain ⟨s, _, rfl⟩ := List.mem_map.mp hx
          exact abs_nonneg _)
      have hmin1 : min 1 ((scores.map (fun s => |s.ist_value - s.soll_value|)).sum / (8 * 3)) ≤ 1 :=
        min_le_left _ _
      have hmin0 : 0 ≤ min 1 ((scores.map (fun s => |s.ist_value - s.soll_value|)).sum / (8 * 3)) :=
        le_min (by norm_num) (by positivity)
      exact round3_mem_unit (by linarith) (by linarith)
  · unfold Backend.calculate_si
    split
    · norm_num
    · have ht : 0 ≤ (Backend.TENSION_PAIRS.map (fun p =>
        match lookupDim scores p.1, lookupDim scores p.2 with
        | some sa, some sb =>
            |(sa.ist_value - sa.soll_value) - (sb.ist_value - sb.soll_value)| *
              (1 / (Backend.TENSION_PAIRS.length : ℚ))
        | _, _ => 0)).sum := by
        refine List.sum_nonneg ?_
        intro x hx
        obtain ⟨p, _, rfl⟩ := List.mem_map.mp hx
        cases lookupDim scores p.1 <;> cases lookupDim scores p.2 <;>
          simp <;> positivity
      have h0 : 0 ≤ min ((Backend.TENSION_PAIRS.map (fun p =>
        match lookupDim scores p.1, lookupDim scores p.2 with
        | some sa, some sb =>
            |(sa.ist_value - sa.soll_value) - (sb.ist_value - sb.soll_value)| *
              (1 / (Backend.TENSION_PAIRS.length : ℚ))
        | _, _ => 0)).sum / 6) 1 := le_min (by positivity) (by norm_num)
      exact round3_mem_unit h0 (min_le_right _ _)
  · unfold Backend.calculate_context_score
    split
    · norm_num
    · have h1 := factor_value_of_bounds fs hf "Organisationsgröße"
      have h2 := factor_value_of_bounds fs hf "Branchendynamik"
      have h3 := factor_value_of_bounds fs hf "Regulatorischer Druck"
      have h4 := factor_value_of_bounds fs hf "Technologische Komplexität"
      have h5 := factor_value_of_bounds fs hf "Change-Historie"
      have h6 := factor_value_of_bounds fs hf "Marktdynamik"
      have h7 := factor_value_of_bounds fs hf "Wettbewerbsdruck"
      have h8 := factor_value_of_bounds fs hf "Ressourcenverfügbarkeit"
      have htot : 0 ≤ Backend.context_total fs ∧ Backend.context_total fs ≤ 24 := by
        simp only [Backend.context_total, Backend.expected_factors, List.map, List.sum_cons,
          List.sum_nil]
        norm_num
        omega
      have hq0 : (0:ℚ) ≤ (Backend.context_total fs : ℚ) / 24 := by
        have : (0:ℚ) ≤ (Backend.context_total fs : ℚ) := by exact_mod_cast htot.1
        positivity
      have hq1 : (Backend.context_total fs : ℚ) / 24 ≤ 1 := by
        rw [div_le_one (by norm_num)]
        exact_mod_cast htot.2
      exact round3_mem_unit hq0 hq1
  · unfold Backend.calculate_rgi
    split
    · norm_num
    · have hup : (scores.map (fun s => s.ist_value * s.dynamic_weight)).sum ≤ 4 := by
        have hle : (scores.map (fun s => s.ist_value * s.dynamic_weight)).sum ≤
            (scores.map (fun s => 4 * s.dynamic_weight)).sum := by
          refine List.sum_le_sum ?_
          intro x hx
          have := hb x hx
          nlinarith [this.1, this.2.1, this.2.2]
        rw [sum_map_const_mul, hw] at hle
        linarith
      have hlo : 0 ≤ (scores.map (fun s => s.ist_value * s.dynamic_weight)).sum := by
        refine List.sum_nonneg ?_
        intro x hx
        obtain ⟨s, hsm, rfl⟩ := List.mem_map.mp hx
        exact mul_nonneg (hb s hsm).1 (hb s hsm).2.2
      exact round3_mem_unit (by positivity) (by rw [div_le_one (by norm_num)]; linarith)
  · unfold Backend.calculate_sbs
    exact round3_mem_unit (by linarith) (by linarith)

/-- C8 witness: the RGI and SBS bounds at concrete well-formed inputs. -/
theorem c8_metric_bounds_witness :
    (0 ≤ Backend.calculate_rgi demoScores ∧ Backend.calculate_rgi demoScores ≤ 1) ∧
    (0 ≤ Backend.calculate_sbs 0.833 0 0.625 ∧ Backend.calculate_sbs 0.833 0 0.625 ≤ 1) := by
  have h := c8_metric_bounds
  have hb : ∀ x ∈ demoScores, 0 ≤ x.ist_value ∧ x.ist_value ≤ 4 ∧ 0 ≤ x.dynamic_weight := by
    intro x hx
    simp [demoScores] at hx
    rcases hx with rfl | rfl | rfl | rfl | rfl | rfl | rfl | rfl <;> norm_num
  have hw : (demoScores.map (fun x => x.dynamic_weight)).sum = 1 := by
    norm_num [demoScores]
  exact ⟨h.2.2.2.2.2.2.1 demoScores hb hw,
    h.2.2.2.2.2.2.2 0.833 0 0.625 (by norm_num) (by norm_num) (by norm_num)
      (by norm_num) (by norm_num) (by norm_num)⟩

end AIHE

namespace AIHE

lemma length_filterMap_of_isSome {α β : Type} (f : α → Option β) :
    ∀ (l : List α), (∀ a ∈ l, (f a).isSome) → (l.filterMap f).length = l.length
  | [], _ => rfl
  | a :: t, h => by
    have ha := h a (List.mem_cons_self a t)
    rw [List.filterMap_cons]
    cases hfa : f a with
    | none => rw [hfa] at ha; simp at ha
    | some b =>
        simp [length_filterMap_of_isSome f t (fun x hx => h x (List.mem_cons_of_mem a hx))]

lemma validator_ok_shape (v v2 : List SubdimensionScore)
    (h : Crud.validate_all_subdimensions v = .ok v2) :
    v2 = v ∧ v.length = 16 ∧
      ∀ e ∈ Crud.expected_subdimensions, e ∈ v.map (fun s => s.subdimension_id) := by
  unfold Crud.validate_all_subdimensions at h
  split at h
  · exact absurd h (by simp)
  · split at h
    · exact absurd h (by simp)
    · rename_i h1 h2
      cases h
      refine ⟨rfl, not_ne_iff.mp h1, ?_⟩
      intro e he
      have hall := not_not.mp h2
      have := List.all_eq_true.mp hall e he
      exact List.mem_of_elem_eq_true this

lemma validator_ok_counts (v : List SubdimensionScore)
    (h16 : v.length = 16)
    (hall : ∀ e ∈ Crud.expected_subdimensions, e ∈ v.map (fun s => s.subdimension_id)) :
    ∀ d : Dim,
      (v.filter (fun s => strStartsWith s.subdimension_id (dimName d ++ "."))).length = 2 := by
  intro d
  have hnd : Crud.expected_subdimensions.Nodup := by decide
  have hsp : List.Subperm Crud.expected_subdimensions
      (v.map (fun s => s.subdimension_id)) :=
    List.subperm_of_subset hnd hall
  have hperm : Crud.expected_subdimensions.Perm (v.map (fun s => s.subdimension_id)) :=
    List.Subperm.perm_of_length_le hsp (by simp [h16, Crud.expected_subdimensions])
  have hcount : (v.map (fun s => s.subdimension_id)).countP
      (fun id => strStartsWith id (dimName d ++ ".")) =
      Crud.expected_subdimensions.countP (fun id => strStartsWith id (dimName d ++ ".")) :=
    List.Perm.countP_congr hperm.symm (fun x _ => rfl)
  have hexp : Crud.expected_subdimensions.countP
      (fun id => strStartsWith id (dimName d ++ ".")) = 2 := by
    cases d <;> decide
  have hmap := List.countP_map (fun id => strStartsWith id (dimName d ++ "."))
    (fun s : SubdimensionScore => s.subdimension_id) v
  rw [← List.countP_eq_length_filter]
  calc v.countP (fun s => strStartsWith s.subdimension_id (dimName d ++ "."))
      = (v.map (fun s => s.subdimension_id)).countP
          (fun id => strStartsWith id (dimName d ++ ".")) := hmap.symm
    _ = 2 := by rw [hcount, hexp]

lemma aggregate_length_eight (v : List SubdimensionScore) (w : Dim → ℚ)
    (hc : ∀ d : Dim,
      (v.filter (fun s => strStartsWith s.subdimension_id (dimName d ++ "."))).length = 2) :
    (Crud.aggregate_dimension_scores v w).length = 8 := by
  unfold Crud.aggregate_dimension_scores
  rw [length_filterMap_of_isSome]
  · rfl
  · intro d _
    simp only [hc d, if_pos]
    rfl

/-- C2: when the supplied subdimension scores are not exactly two per
dimension with 16 in total, the completion path rejects them with an
invalid-input error (the `AssessmentCompletion` validator, surfaced to the
API caller); when it accepts, the aggregation always produces exactly 8
dimension scores — it never silently proceeds with fewer. -/
theorem c2_completion_contract (subs : List SubdimensionScore)
    (cf : List ContextFactor) (arch : String) :
    (¬ (subs.length = 16 ∧ ∀ d : Dim,
        (subs.filter (fun s => strStartsWith s.subdimension_id (dimName d ++ "."))).length = 2) →
      ∃ msg, Crud.complete_assessment subs cf arch = .error msg) ∧
    (∀ res, Crud.complete_assessment subs cf arch = .ok res → res.1.length = 8) := by
  rcases hv : Crud.validate_all_subdimensions subs with msg | v2
  · constructor
    · intro _
      exact ⟨msg, by simp only [Crud.complete_assessment, hv]⟩
    · intro res hres
      simp only [Crud.complete_assessment, hv] at hres
      exact absurd hres (by simp)
  · obtain ⟨hv2, h16, hall⟩ := validator_ok_shape subs v2 hv
    rw [hv2] at hv
    have hc := validator_ok_counts subs h16 hall
    constructor
    · intro hbad
      exact absurd ⟨h16, hc⟩ hbad
    · intro res hres
      simp only [Crud.complete_assessment, hv] at hres
      injection hres with h
      rw [← h]
      exact aggregate_length_eight subs _ hc

/-- C2 witness: an empty score list is rejected with an error. -/
theorem c2_completion_contract_witness :
    ∃ msg, Crud.complete_assessment [] [] "BALANCED_TRANSFORMER" = .error msg :=
  (c2_completion_contract [] [] "BALANCED_TRANSFORMER").1
    (by rintro ⟨h, -⟩; simp at h)

end AIHE

namespace AIHE

lemma foldl_rule_apply (p : DimensionScore → Prop) [DecidablePred p] (c : ℚ) :
    ∀ (scores : List DimensionScore) (w : Dim → ℚ) (d : Dim),
      (scores.foldl (fun w s =>
        if p s then updW w s.dimension_id (w s.dimension_id * c) else w) w) d
        = w d * c ^ (scores.countP (fun s => decide (p s ∧ s.dimension_id = d)))
  | [], w, d => by simp
  | s :: t, w, d => by
      rw [List.foldl_cons, List.countP_cons, foldl_rule_apply p c t _ d]
      by_cases hp : p s
      · by_cases hd : s.dimension_id = d
        · rw [if_pos hp]
          have hcond : decide (p s ∧ s.dimension_id = d) = true := by simp [hp, hd]
          rw [hcond]
          simp only [if_true]
          rw [hd, updW_self, pow_succ]
          ring
        · rw [if_pos hp, updW_ne _ _ _ _ (fun he => hd he.symm)]
          have hcond : decide (p s ∧ s.dimension_id = d) = false := by simp [hd]
          rw [hcond]
          simp
      · rw [if_neg hp]
        have hcond : decide (p s ∧ s.dimension_id = d) = false := by simp [hp]
        rw [hcond]
        simp

lemma rule1_apply (w : Dim → ℚ) (scores : List DimensionScore) (d : Dim) :
    CalcPy.apply_rule_1_tight_gaps w scores d =
      w d * (1.2:ℚ) ^ (scores.countP (fun s => decide (s.gap ≤ 1.5 ∧ s.dimension_id = d))) :=
  foldl_rule_apply (fun s => s.gap ≤ 1.5) 1.2 scores w d

lemma rule2_apply (w : Dim → ℚ) (scores : List DimensionScore) (d : Dim) :
    CalcPy.apply_rule_2_large_gaps w scores d =
      w d * (1.2:ℚ) ^ (scores.countP (fun s => decide (s.gap > 1.5 ∧ s.dimension_id = d))) :=
  foldl_rule_apply (fun s => s.gap > 1.5) 1.2 scores w d

lemma rule5_apply (w : Dim → ℚ) (scores : List DimensionScore) (d : Dim) :
    CalcPy.apply_rule_5_above_average w scores d =
      w d * (0.8:ℚ) ^ (scores.countP (fun s =>
        decide ((s.ist_value > 3.5 ∧ s.ist_value ≥ s.soll_value ∧
          ¬ CalcPy.is_in_critical_tension s.dimension_id scores = true) ∧
          s.dimension_id = d))) :=
  foldl_rule_apply
    (fun s => s.ist_value > 3.5 ∧ s.ist_value ≥ s.soll_value ∧
      ¬ CalcPy.is_in_critical_tension s.dimension_id scores = true) 0.8 scores w d

lemma countP_cond_split (scores : List DimensionScore) (d : Dim) :
    scores.countP (fun s => decide (s.gap ≤ 1.5 ∧ s.dimension_id = d)) +
      scores.countP (fun s => decide (s.gap > 1.5 ∧ s.dimension_id = d)) =
      scores.countP (fun s => decide (s.dimension_id = d)) := by
  induction scores with
  | nil => simp
  | cons s t ih =>
      simp only [List.countP_cons, decide_eq_true_eq]
      by_cases h1 : s.gap ≤ 1.5 <;> by_cases h2 : s.dimension_id = d
      · rw [if_pos ⟨h1, h2⟩, if_neg (fun hc => absurd hc.1 (not_lt.mpr h1)), if_pos h2]
        omega
      · rw [if_neg (fun hc => h2 hc.2), if_neg (fun hc => h2 hc.2), if_neg h2]
        omega
      · rw [if_neg (fun hc => h1 hc.1), if_pos ⟨not_le.mp h1, h2⟩, if_pos h2]
        omega
      · rw [if_neg (fun hc => h2 hc.2), if_neg (fun hc => h2 hc.2), if_neg h2]
        omega

lemma countP_rule5_le (scores : List DimensionScore) (d : Dim) :
    scores.countP (fun s =>
      decide ((s.ist_value > 3.5 ∧ s.ist_value ≥ s.soll_value ∧
        ¬ CalcPy.is_in_critical_tension s.dimension_id scores = true) ∧
        s.dimension_id = d)) ≤
      scores.countP (fun s => decide (s.dimension_id = d)) := by
  refine List.countP_mono_left ?_
  intro x _ hx
  simp only [decide_eq_true_eq] at hx ⊢
  exact hx.2

lemma countP_dim_sum (scores : List DimensionScore) :
    scores.countP (fun s => decide (s.dimension_id = .D1)) +
    scores.countP (fun s => decide (s.dimension_id = .D2)) +
    scores.countP (fun s => decide (s.dimension_id = .D3)) +
    scores.countP (fun s => decide (s.dimension_id = .D4)) +
    scores.countP (fun s => decide (s.dimension_id = .D5)) +
    scores.countP (fun s => decide (s.dimension_id = .D6)) +
    scores.countP (fun s => decide (s.dimension_id = .D7)) +
    scores.countP (fun s => decide (s.dimension_id = .D8)) = scores.length := by
  induction scores with
  | nil => simp
  | cons s t ih =>
      simp only [List.countP_cons, List.length_cons]
      cases hs : s.dimension_id <;> simp [hs] <;> omega

end AIHE

namespace AIHE

lemma base_weight_bounds (is_kmu : Bool) (d : Dim) :
    (0.10 : ℚ) ≤ CalcPy.load_base_weights is_kmu d ∧
      CalcPy.load_base_weights is_kmu d ≤ 0.15 := by
  cases is_kmu <;> cases d <;> norm_num [CalcPy.load_base_weights]

lemma archetyp_factor_bounds (archetyp : CalcPy.Archetyp) (d : Dim) :
    (0.7 : ℚ) ≤ CalcPy.get_archetyp_factors archetyp d ∧
      CalcPy.get_archetyp_factors archetyp d ≤ 1.5 := by
  cases archetyp <;> cases d <;> norm_num [CalcPy.get_archetyp_factors]

lemma rule3_bounds (w : Dim → ℚ) (scores : List DimensionScore)
    (hw : ∀ d, 0 ≤ w d) (d : Dim) :
    w d ≤ CalcPy.apply_rule_3_high_tension w scores d ∧
      CalcPy.apply_rule_3_high_tension w scores d ≤ 1.3 * w d := by
  unfold CalcPy.apply_rule_3_high_tension
  cases h6 : lookupDim scores Dim.D6 <;> cases h3 : lookupDim scores Dim.D3 <;>
    simp only []
  · exact ⟨le_rfl, by linarith [hw d]⟩
  · exact ⟨le_rfl, by linarith [hw d]⟩
  · exact ⟨le_rfl, by linarith [hw d]⟩
  · split_ifs
    · cases d <;> refine ⟨?_, ?_⟩ <;> simp [updW] <;>
        linarith [hw .D1, hw .D2, hw .D3, hw .D4, hw .D5, hw .D6, hw .D7, hw .D8]
    · cases d <;> refine ⟨?_, ?_⟩ <;> simp [updW] <;>
        linarith [hw .D1, hw .D2, hw .D3, hw .D4, hw .D5, hw .D6, hw .D7, hw .D8]
    · exact ⟨le_rfl, by linarith [hw d]⟩

lemma rule4_bounds (w : Dim → ℚ) (context_score : ℚ)
    (hw : ∀ d, 0 ≤ w d) (d : Dim) :
    w d ≤ CalcPy.apply_rule_4_context w context_score d ∧
      CalcPy.apply_rule_4_context w context_score d ≤ 1.2 * w d := by
  unfold CalcPy.apply_rule_4_context
  split_ifs
  · cases d <;> refine ⟨?_, ?_⟩ <;> simp [updW] <;>
      linarith [hw .D1, hw .D2, hw .D3, hw .D4, hw .D5, hw .D6, hw .D7, hw .D8]
  · cases d <;> refine ⟨?_, ?_⟩ <;> simp [updW] <;>
      linarith [hw .D1, hw .D2, hw .D3, hw .D4, hw .D5, hw .D6, hw .D7, hw .D8]
  · exact ⟨le_rfl, by linarith [hw d]⟩

lemma rule6_bounds (w : Dim → ℚ) (archetyp : CalcPy.Archetyp)
    (hw : ∀ d, 0 ≤ w d) (d : Dim) :
    0.7 * w d ≤ CalcPy.apply_rule_6_archetyp w archetyp d ∧
      CalcPy.apply_rule_6_archetyp w archetyp d ≤ 1.5 * w d := by
  have hf := archetyp_factor_bounds archetyp d
  unfold CalcPy.apply_rule_6_archetyp
  constructor
  · nlinarith [hw d, hf.1]
  · nlinarith [hw d, hf.2]

lemma pow_mul_pow_lower {k m : ℕ} (hm : m ≤ k) (hk : k ≤ 8) :
    ((24:ℚ)/25)^8 ≤ (1.2:ℚ)^k * (0.8:ℚ)^m := by
  have h1 : (1.2:ℚ)^k * (0.8:ℚ)^m = (1.2:ℚ)^(k-m) * ((24:ℚ)/25)^m := by
    calc (1.2:ℚ)^k * (0.8:ℚ)^m
        = (1.2:ℚ)^((k-m)+m) * (0.8:ℚ)^m := by rw [Nat.sub_add_cancel hm]
      _ = (1.2:ℚ)^(k-m) * ((1.2:ℚ)^m * (0.8:ℚ)^m) := by rw [pow_add]; ring
      _ = (1.2:ℚ)^(k-m) * ((1.2:ℚ) * 0.8)^m := by rw [mul_pow]
      _ = (1.2:ℚ)^(k-m) * ((24:ℚ)/25)^m := by norm_num
  rw [h1]
  have h2 : (1:ℚ) ≤ (1.2:ℚ)^(k-m) := one_le_pow₀ (by norm_num)
  have h3 : ((24:ℚ)/25)^8 ≤ ((24:ℚ)/25)^m :=
    pow_le_pow_of_le_one (by norm_num) (by norm_num) (hm.trans hk)
  calc ((24:ℚ)/25)^8 ≤ ((24:ℚ)/25)^m := h3
    _ = 1 * ((24:ℚ)/25)^m := (one_mul _).symm
    _ ≤ (1.2:ℚ)^(k-m) * ((24:ℚ)/25)^m :=
        mul_le_mul_of_nonneg_right h2 (pow_nonneg (by norm_num) m)

lemma pow12_le_affine (k : ℕ) (hk : k ≤ 8) :
    (1.2:ℚ)^k ≤ 1 + (1288991/390625) * k / 8 := by
  interval_cases k <;> norm_num

end AIHE

namespace AIHE

lemma normalize_bounds (w : Dim → ℚ) (hpos : 0 < wsum w)
    (hper : ∀ d, wsum w ≤ 100 * w d) :
    |wsum (CalcPy.normalize_weights w) - 1| ≤ 0.001 ∧
    ∀ d, 0.01 ≤ CalcPy.normalize_weights w d := by
  have hsum1 : wsum (fun d => w d / wsum w) = 1 := by
    have h : wsum (fun d => w d / wsum w) = wsum w / wsum w := by
      simp only [wsum_eq]
      ring
    rw [h, div_self (ne_of_gt hpos)]
  have hnd : ∀ d, 1/100 ≤ w d / wsum w := by
    intro d
    rw [le_div_iff hpos]
    linarith [hper d]
  have hrd : ∀ d, 1/100 ≤ round3 (w d / wsum w) := fun d => round3_ge_centi (hnd d)
  have herr_lb : ∀ d, w d / wsum w - 1/2000 < round3 (w d / wsum w) := fun d => lt_round3 _
  have herr_ub : ∀ d, round3 (w d / wsum w) ≤ w d / wsum w + 1/2000 := fun d => round3_le _
  set r := fun d => round3 (w d / wsum w) with hr
  have hsr_lb : 1 - 1/250 < wsum r := by
    have hs := hsum1
    rw [wsum_eq] at hs
    rw [wsum_eq]
    linarith [herr_lb .D1, herr_lb .D2, herr_lb .D3, herr_lb .D4,
      herr_lb .D5, herr_lb .D6, herr_lb .D7, herr_lb .D8]
  have hsr_ub : wsum r ≤ 1 + 1/250 := by
    have hs := hsum1
    rw [wsum_eq] at hs
    rw [wsum_eq]
    linarith [herr_ub .D1, herr_ub .D2, herr_ub .D3, herr_ub .D4,
      herr_ub .D5, herr_ub .D6, herr_ub .D7, herr_ub .D8]
  have hmax : wsum r ≤ 8 * r (largestDim r) := by
    rw [wsum_eq]
    linarith [le_largestDim r .D1, le_largestDim r .D2, le_largestDim r .D3,
      le_largestDim r .D4, le_largestDim r .D5, le_largestDim r .D6,
      le_largestDim r .D7, le_largestDim r .D8]
  have hkey : CalcPy.normalize_weights w =
      if |1 - wsum r| > 0.0001 then
        updW r (largestDim r) (r (largestDim r) + (1 - wsum r))
      else r := rfl
  rw [hkey]
  by_cases hc : |1 - wsum r| > 0.0001
  · rw [if_pos hc]
    constructor
    · rw [wsum_updW]
      have hX : wsum r - r (largestDim r) + (r (largestDim r) + (1 - wsum r)) = 1 := by ring
      rw [hX]
      norm_num
    · intro d
      by_cases hdm : d = largestDim r
      · rw [hdm, updW_self]
        linarith [hmax, hsr_ub]
      · rw [updW_ne _ _ _ _ hdm]
        have h := hrd d
        norm_num at h ⊢
        exact h
  · rw [if_neg hc]
    constructor
    · have hle := not_lt.mp hc
      calc |wsum r - 1| = |1 - wsum r| := abs_sub_comm _ _
        _ ≤ 0.0001 := hle
        _ ≤ 0.001 := by norm_num
    · intro d
      have h := hrd d
      norm_num at h ⊢
      exact h

end AIHE

namespace AIHE

lemma chain_lower (b x2 x3 x4 x5 x6 : ℚ) (k m : ℕ)
    (hb : (0.10:ℚ) ≤ b) (hx2 : x2 = b * (1.2:ℚ)^k) (h3l : x2 ≤ x3) (h4l : x3 ≤ x4)
    (hx5 : x5 = x4 * (0.8:ℚ)^m) (h6l : 0.7 * x5 ≤ x6) (hm : m ≤ k) (hk : k ≤ 8) :
    (7/100) * ((24:ℚ)/25)^8 ≤ x6 := by
  have hpow := pow_mul_pow_lower hm hk
  have h12 : (0:ℚ) < (1.2:ℚ)^k := by positivity
  have h08 : (0:ℚ) < (0.8:ℚ)^m := by positivity
  calc (7/100) * ((24:ℚ)/25)^8
      = 0.7 * ((0.10:ℚ) * ((24:ℚ)/25)^8) := by ring
    _ ≤ 0.7 * ((0.10:ℚ) * ((1.2:ℚ)^k * (0.8:ℚ)^m)) := by linarith
    _ ≤ 0.7 * (b * ((1.2:ℚ)^k * (0.8:ℚ)^m)) := by
        nlinarith [mul_nonneg (sub_nonneg.mpr hb) (le_of_lt (mul_pos h12 h08))]
    _ = 0.7 * (x2 * (0.8:ℚ)^m) := by rw [hx2]; ring
    _ ≤ 0.7 * (x4 * (0.8:ℚ)^m) := by
        nlinarith [mul_nonneg (sub_nonneg.mpr (h3l.trans h4l)) (le_of_lt h08)]
    _ = 0.7 * x5 := by rw [hx5]
    _ ≤ x6 := h6l

lemma chain_upper (b x2 x3 x4 x5 x6 : ℚ) (k m : ℕ)
    (hb : b ≤ (0.15:ℚ)) (hx2 : x2 = b * (1.2:ℚ)^k)
    (h3u : x3 ≤ 1.3 * x2) (h4u : x4 ≤ 1.2 * x3) (h4nn : 0 ≤ x4)
    (hx5 : x5 = x4 * (0.8:ℚ)^m) (h6u : x6 ≤ 1.5 * x5) :
    x6 ≤ (351/1000) * (1.2:ℚ)^k := by
  have h08 : (0.8:ℚ)^m ≤ 1 := pow_le_one₀ (by norm_num) (by norm_num)
  have h08nn : (0:ℚ) ≤ (0.8:ℚ)^m := by positivity
  have hpk : (0:ℚ) ≤ (1.2:ℚ)^k := by positivity
  calc x6 ≤ 1.5 * x5 := h6u
    _ = 1.5 * (x4 * (0.8:ℚ)^m) := by rw [hx5]
    _ ≤ 1.5 * x4 := by nlinarith
    _ ≤ 1.5 * (1.2 * x3) := by linarith
    _ ≤ 1.5 * (1.2 * (1.3 * x2)) := by linarith
    _ = 2.34 * (b * (1.2:ℚ)^k) := by rw [hx2]; ring
    _ ≤ 2.34 * ((0.15:ℚ) * (1.2:ℚ)^k) := by
        nlinarith [mul_nonneg (sub_nonneg.mpr hb) hpk]
    _ = (351/1000) * (1.2:ℚ)^k := by ring

/-- C1: for any 8 dimension scores, any context score, any archetype and any
KMU flag, the weights returned by the root dynamic weighting engine sum to
1.000 within 1e-3 and every returned weight is at least 0.01. -/
theorem c1_dynamic_weights_invariant (dimension_scores : List DimensionScore)
    (context_score : ℚ) (archetyp : CalcPy.Archetyp) (is_kmu : Bool)
    (h8 : dimension_scores.length = 8) :
    |wsum (CalcPy.calculate_dynamic_weights dimension_scores context_score archetyp is_kmu)
        - 1| ≤ 0.001 ∧
    ∀ d, 0.01 ≤
      CalcPy.calculate_dynamic_weights dimension_scores context_score archetyp is_kmu d := by
  set w0 := CalcPy.load_base_weights is_kmu with hw0def
  set w1 := CalcPy.apply_rule_1_tight_gaps w0 dimension_scores with hw1def
  set w2 := CalcPy.apply_rule_2_large_gaps w1 dimension_scores with hw2def
  set w3 := CalcPy.apply_rule_3_high_tension w2 dimension_scores with hw3def
  set w4 := CalcPy.apply_rule_4_context w3 context_score with hw4def
  set w5 := CalcPy.apply_rule_5_above_average w4 dimension_scores with hw5def
  set w6 := CalcPy.apply_rule_6_archetyp w5 archetyp with hw6def
  set w7 := CalcPy.apply_minimum_security w6 with hw7def
  have hcalc : CalcPy.calculate_dynamic_weights dimension_scores context_score archetyp is_kmu
      = CalcPy.normalize_weights w7 := rfl
  have hk8 : ∀ d : Dim,
      dimension_scores.countP (fun s => decide (s.dimension_id = d)) ≤ 8 :=
    fun d => h8 ▸ List.countP_le_length _
  have hm5 : ∀ d : Dim,
      dimension_scores.countP (fun s =>
        decide ((s.ist_value > 3.5 ∧ s.ist_value ≥ s.soll_value ∧
          ¬ CalcPy.is_in_critical_tension s.dimension_id dimension_scores = true) ∧
          s.dimension_id = d)) ≤
        dimension_scores.countP (fun s => decide (s.dimension_id = d)) :=
    fun d => countP_rule5_le dimension_scores d
  have hw2 : ∀ d, w2 d = w0 d *
      (1.2:ℚ) ^ (dimension_scores.countP (fun s => decide (s.dimension_id = d))) := by
    intro d
    rw [hw2def, rule2_apply, hw1def, rule1_apply, mul_assoc, ← pow_add, countP_cond_split]
  have h2pos : ∀ d, (0:ℚ) < w2 d := by
    intro d
    rw [hw2 d]
    have hb := (base_weight_bounds is_kmu d).1
    have hpos0 : (0:ℚ) < w0 d := by rw [hw0def]; linarith
    exact mul_pos hpos0 (pow_pos (by norm_num) _)
  have h2nn : ∀ d, (0:ℚ) ≤ w2 d := fun d => le_of_lt (h2pos d)
  have h3 : ∀ d, w2 d ≤ w3 d ∧ w3 d ≤ 1.3 * w2 d := by
    intro d
    rw [hw3def]
    exact rule3_bounds w2 dimension_scores h2nn d
  have h3nn : ∀ d, (0:ℚ) ≤ w3 d := fun d => le_trans (h2nn d) (h3 d).1
  have h4 : ∀ d, w3 d ≤ w4 d ∧ w4 d ≤ 1.2 * w3 d := by
    intro d
    rw [hw4def]
    exact rule4_bounds w3 context_score h3nn d
  have h4nn : ∀ d, (0:ℚ) ≤ w4 d := fun d => le_trans (h3nn d) (h4 d).1
  have hw5 : ∀ d, w5 d = w4 d *
      (0.8:ℚ) ^ (dimension_scores.countP (fun s =>
        decide ((s.ist_value > 3.5 ∧ s.ist_value ≥ s.soll_value ∧
          ¬ CalcPy.is_in_critical_tension s.dimension_id dimension_scores = true) ∧
          s.dimension_id = d))) := by
    intro d
    rw [hw5def]
    exact rule5_apply w4 dimension_scores d
  have h5nn : ∀ d, (0:ℚ) ≤ w5 d := by
    intro d
    rw [hw5 d]
    exact mul_nonneg (h4nn d) (pow_nonneg (by norm_num) _)
  have h6 : ∀ d, 0.7 * w5 d ≤ w6 d ∧ w6 d ≤ 1.5 * w5 d := by
    intro d
    rw [hw6def]
    exact rule6_bounds w5 archetyp h5nn d
  have hlow : ∀ d, (7/100) * ((24:ℚ)/25)^8 ≤ w6 d := by
    intro d
    exact chain_lower (w0 d) (w2 d) (w3 d) (w4 d) (w5 d) (w6 d) _ _
      (by have := (base_weight_bounds is_kmu d).1; rw [hw0def]; exact this)
      (hw2 d) (h3 d).1 (h4 d).1 (hw5 d) (h6 d).1 (hm5 d) (hk8 d)
  have hup : ∀ d, w6 d ≤ (351/1000) *
      (1.2:ℚ) ^ (dimension_scores.countP (fun s => decide (s.dimension_id = d))) := by
    intro d
    exact chain_upper (w0 d) (w2 d) (w3 d) (w4 d) (w5 d) (w6 d) _ _
      (by have := (base_weight_bounds is_kmu d).2; rw [hw0def]; exact this)
      (hw2 d) (h3 d).2 (h4 d).2 (h4nn d) (hw5 d) (h6 d).2
  have hksum : dimension_scores.countP (fun s => decide (s.dimension_id = .D1)) +
      dimension_scores.countP (fun s => decide (s.dimension_id = .D2)) +
      dimension_scores.countP (fun s => decide (s.dimension_id = .D3)) +
      dimension_scores.countP (fun s => decide (s.dimension_id = .D4)) +
      dimension_scores.countP (fun s => decide (s.dimension_id = .D5)) +
      dimension_scores.countP (fun s => decide (s.dimension_id = .D6)) +
      dimension_scores.countP (fun s => decide (s.dimension_id = .D7)) +
      dimension_scores.countP (fun s => decide (s.dimension_id = .D8)) = 8 := by
    rw [countP_dim_sum, h8]
  have hksumq : ((dimension_scores.countP (fun s => decide (s.dimension_id = .D1)) : ℚ)) +
      (dimension_scores.countP (fun s => decide (s.dimension_id = .D2)) : ℚ) +
      (dimension_scores.countP (fun s => decide (s.dimension_id = .D3)) : ℚ) +
      (dimension_scores.countP (fun s => decide (s.dimension_id = .D4)) : ℚ) +
      (dimension_scores.countP (fun s => decide (s.dimension_id = .D5)) : ℚ) +
      (dimension_scores.countP (fun s => decide (s.dimension_id = .D6)) : ℚ) +
      (dimension_scores.countP (fun s => decide (s.dimension_id = .D7)) : ℚ) +
      (dimension_scores.countP (fun s => decide (s.dimension_id = .D8)) : ℚ) = 8 := by
    exact_mod_cast hksum
  have haff : ∀ d : Dim, (1.2:ℚ) ^
      (dimension_scores.countP (fun s => decide (s.dimension_id = d))) ≤
      1 + (1288991/390625) *
        (dimension_scores.countP (fun s => decide (s.dimension_id = d))) / 8 :=
    fun d => pow12_le_affine _ (hk8 d)
  have hsum_up : wsum w6 ≤ 1549310841/390625000 := by
    rw [wsum_eq]
    linarith [hup .D1, hup .D2, hup .D3, hup .D4, hup .D5, hup .D6, hup .D7, hup .D8,
      haff .D1, haff .D2, haff .D3, haff .D4, haff .D5, haff .D6, haff .D7, haff .D8,
      hksumq]
  have hL01 : (0.01:ℚ) < (7/100) * ((24:ℚ)/25)^8 := by norm_num
  have h76 : ∀ d, w7 d = w6 d := by
    intro d
    rw [hw7def]
    show (if w6 d < 0.01 then (0.01:ℚ) else w6 d) = w6 d
    rw [if_neg (not_lt.mpr (le_trans (le_of_lt hL01) (hlow d)))]
  have hws76 : wsum w7 = wsum w6 := by
    rw [wsum_eq, wsum_eq, h76, h76, h76, h76, h76, h76, h76, h76]
  have hpos : 0 < wsum w7 := by
    rw [hws76, wsum_eq]
    have hc : (0:ℚ) < (7/100) * ((24:ℚ)/25)^8 := by norm_num
    linarith [hlow .D1, hlow .D2, hlow .D3, hlow .D4, hlow .D5, hlow .D6, hlow .D7, hlow .D8]
  have hper : ∀ d, wsum w7 ≤ 100 * w7 d := by
    intro d
    rw [hws76, h76 d]
    have hcmp : (1549310841:ℚ)/390625000 ≤ 100 * ((7/100) * ((24:ℚ)/25)^8) := by norm_num
    linarith [hlow d, hsum_up]
  have hres := normalize_bounds w7 hpos hper
  rw [hcalc]
  exact hres

/-- C1 witness: the invariant at a concrete balanced assessment. -/
theorem c1_dynamic_weights_invariant_witness :
    |wsum (CalcPy.calculate_dynamic_weights demoScores 0.5
        CalcPy.Archetyp.BALANCED_TRANSFORMER false) - 1| ≤ 0.001 ∧
    ∀ d, 0.01 ≤ CalcPy.calculate_dynamic_weights demoScores 0.5
        CalcPy.Archetyp.BALANCED_TRANSFORMER false d :=
  c1_dynamic_weights_invariant demoScores 0.5 CalcPy.Archetyp.BALANCED_TRANSFORMER false rfl

end AIHE
